import Mathlib

/-!
Verification of the MercuryFX market-structure analysis and signal pipeline.

Shallow embedding conventions used throughout this file:
* Python floats are modelled by the rational numbers; every numeric literal
  occurring in the source (0.75, 1.2, 0.0001, ...) is exactly representable.
* Python lists and pandas series are modelled by Lean lists over the rationals;
  indexed access uses getD with a default that is only reachable outside the
  index ranges the source iterates over.
* Python dictionaries whose key set matters to a claim are modelled by
  association lists over String keys; dictionaries with a fixed shape are
  modelled by structures with one field per key.
* timestamps are integers (epoch seconds); the code only compares them.
-/

namespace MercuryFX

/-- PyVal is the value type for modelled Python dictionaries with
heterogeneous entries. -/
inductive PyVal where
  | str (s : String)
  | num (q : ℚ)
  | int (n : ℤ)
  | list (l : List PyVal)
  | dict (d : List (String × PyVal))
  | none

/-- PyDict models a Python dict with string keys. -/
abbrev PyDict := List (String × PyVal)

/-- slookup models Python dictionary lookup for an association list. -/
def slookup {α : Type} : List (String × α) → String → Option α
  | [], _ => Option.none
  | (k, v) :: t, key => if k = key then Option.some v else slookup t key

/-- sset models Python dictionary assignment for an association list. -/
def sset {α : Type} : List (String × α) → String → α → List (String × α)
  | [], k, v => [(k, v)]
  | (k0, v0) :: t, k, v => if k0 = k then (k, v) :: t else (k0, v0) :: sset t k v

/-- dget models the Python expression d.get(key) returning None when absent. -/
def dget (d : PyDict) (key : String) : Option PyVal :=
  slookup d key

/-- dgetNum models d.get(key, default) read as a number; the dictionaries
built in this file store only numeric values under the keys read this way. -/
def dgetNum (d : PyDict) (key : String) (dflt : ℚ) : ℚ :=
  match dget d key with
  | Option.some (PyVal.num q) => q
  | Option.some (PyVal.int n) => (n : ℚ)
  | _ => dflt

/-- dgetInt models d.get(key, default) read as an integer count. -/
def dgetInt (d : PyDict) (key : String) (dflt : ℤ) : ℤ :=
  match dget d key with
  | Option.some (PyVal.int n) => n
  | Option.some (PyVal.num q) => q.num
  | _ => dflt

/-- pyEqStr models the Python comparison v == s where v may be None; a missing
key compares unequal to every string, as in Python. -/
def pyEqStr (v : Option PyVal) (s : String) : Bool :=
  match v with
  | Option.some (PyVal.str t) => t == s
  | _ => false

/-- roundHalfEven is the integer rounding used by the Python builtin round:
ties go to the even integer. -/
def roundHalfEven (x : ℚ) : ℤ :=
  let f := ⌊x⌋
  let r := x - (f : ℚ)
  if r < 1/2 then f
  else if r > 1/2 then f + 1
  else if f % 2 = 0 then f else f + 1

/-- pyRound models round(x, d) over the rationals. -/
def pyRound (x : ℚ) (d : ℕ) : ℚ :=
  (roundHalfEven (x * 10 ^ d) : ℚ) / 10 ^ d

/-- pyMax models the Python builtin max over a list, returning none for an
empty list (where Python would raise). -/
def pyMax : List ℚ → Option ℚ
  | [] => Option.none
  | x :: t =>
    match pyMax t with
    | Option.none => Option.some x
    | Option.some m => Option.some (max x m)

/-- pyMin models the Python builtin min over a list. -/
def pyMin : List ℚ → Option ℚ
  | [] => Option.none
  | x :: t =>
    match pyMin t with
    | Option.none => Option.some x
    | Option.some m => Option.some (min x m)

/-- MarketData models one fetched bar window: the parallel OHLCV lists plus
timestamps, exactly the keys of the market-data dictionary consumed by the
analysis code. The Python key named open is spelled opens here because open
is reserved in Lean. -/
structure MarketData where
  opens : List ℚ
  high : List ℚ
  low : List ℚ
  close : List ℚ
  volume : List ℚ
  timestamps : List ℤ
deriving Repr, DecidableEq

namespace SmartMoneyConceptsRender

/-- swing_strength is the half width of the symmetric swing window, set to 5
in the constructor of SmartMoneyConceptsRender. -/
def swing_strength : ℕ := 5

/-- SwingPoint models one entry of the swing_highs or swing_lows lists. -/
structure SwingPoint where
  index : ℕ
  timestamp : ℤ
  price : ℚ
  kind : String
deriving Repr, DecidableEq

/-- SwingPoints models the dictionary returned by identify_swing_points. -/
structure SwingPoints where
  swing_highs : List SwingPoint
  swing_lows : List SwingPoint
deriving Repr, DecidableEq

/-- is_swing_high is the inner loop of identify_swing_points for a candidate
index i: every other index j of the window [i - 5, i + 5] must carry a
strictly smaller high, since the source rejects i as soon as
highs[j] >= highs[i] for some j different from i. -/
def is_swing_high (highs : List ℚ) (i : ℕ) : Bool :=
  (List.range' (i - swing_strength) (2 * swing_strength + 1)).all
    (fun j => j == i || decide (highs.getD j 0 < highs.getD i 0))

/-- is_swing_low is the symmetric inner loop on the lows. -/
def is_swing_low (lows : List ℚ) (i : ℕ) : Bool :=
  (List.range' (i - swing_strength) (2 * swing_strength + 1)).all
    (fun j => j == i || decide (lows.getD i 0 < lows.getD j 0))

/-- identify_swing_points models SmartMoneyConceptsRender.identify_swing_points:
the outer loop runs i over range(5, len(highs) - 5) and appends a swing-high
record and independently a swing-low record whenever the corresponding window
test passes. The interleaved appends of the source produce exactly these two
filtered lists. -/
def identify_swing_points (md : MarketData) : SwingPoints :=
  let idxs := List.range' swing_strength (md.high.length - 2 * swing_strength)
  { swing_highs :=
      (idxs.filter (is_swing_high md.high)).map
        (fun i => ⟨i, md.timestamps.getD i 0, md.high.getD i 0, "swing_high"⟩),
    swing_lows :=
      (idxs.filter (is_swing_low md.low)).map
        (fun i => ⟨i, md.timestamps.getD i 0, md.low.getD i 0, "swing_low"⟩) }

/-- BosSignal models one entry of the bos_signals list. -/
structure BosSignal where
  kind : String
  broken_level : ℚ
  current_price : ℚ
  confidence : ℚ
deriving Repr, DecidableEq

/-- detect_break_of_structure models the render BOS detector: with at least
two swing highs, a close above the most recent swing high yields a bullish
continuation record with confidence 0.7, and symmetrically for lows. -/
def detect_break_of_structure (md : MarketData) (sp : SwingPoints) : List BosSignal :=
  let current_price := md.close.getLastD 0
  let bullish : List BosSignal :=
    if 2 ≤ sp.swing_highs.length then
      let recent_high := sp.swing_highs.getLastD ⟨0, 0, 0, ""⟩
      if current_price > recent_high.price then
        [⟨"BOS_BULLISH", recent_high.price, current_price, 7/10⟩]
      else []
    else []
  let bearish : List BosSignal :=
    if 2 ≤ sp.swing_lows.length then
      let recent_low := sp.swing_lows.getLastD ⟨0, 0, 0, ""⟩
      if current_price < recent_low.price then
        [⟨"BOS_BEARISH", recent_low.price, current_price, 7/10⟩]
      else []
    else []
  bullish ++ bearish

/-- MssSignal models one entry of the mss_signals list. -/
structure MssSignal where
  kind : String
  broken_level : ℚ
  current_price : ℚ
  confidence : ℚ
deriving Repr, DecidableEq

/-- detect_market_structure_shift models the render MSS detector with its
elif structure: the bearish test runs first, and the bullish test only when
the bearish one did not fire. Both require two swing highs and two swing
lows, and the signals carry confidence 0.8. -/
def detect_market_structure_shift (md : MarketData) (sp : SwingPoints) : List MssSignal :=
  let current_price := md.close.getLastD 0
  if 2 ≤ sp.swing_highs.length ∧ 2 ≤ sp.swing_lows.length then
    let latest_high := sp.swing_highs.getLastD ⟨0, 0, 0, ""⟩
    let latest_low := sp.swing_lows.getLastD ⟨0, 0, 0, ""⟩
    if latest_high.timestamp > latest_low.timestamp ∧ current_price < latest_low.price then
      [⟨"MSS_BEARISH", latest_low.price, current_price, 4/5⟩]
    else if latest_low.timestamp > latest_high.timestamp ∧ current_price > latest_high.price then
      [⟨"MSS_BULLISH", latest_high.price, current_price, 4/5⟩]
    else []
  else []

/-- FvgSignal models one entry of the fvg_signals list of the render
detector. -/
structure FvgSignal where
  kind : String
  gap_low : ℚ
  gap_high : ℚ
  gap_size : ℚ
  index : ℕ
  confidence : ℚ
deriving Repr, DecidableEq

/-- fvg_step is the body of the render FVG loop at index i: the bullish
gap-up test runs first, the bearish gap-down test only in its elif branch,
and either one registers a signal exactly when its gap strictly exceeds the
threshold, with confidence min(0.9, 0.5 + gap * 1000). -/
def fvg_step (threshold : ℚ) (highs lows : List ℚ) (i : ℕ) : Option FvgSignal :=
  if lows.getD i 0 > highs.getD (i - 2) 0 then
    let gap_size := lows.getD i 0 - highs.getD (i - 2) 0
    if gap_size > threshold then
      Option.some ⟨"FVG_BULLISH", highs.getD (i - 2) 0, lows.getD i 0, gap_size, i,
        min (9/10) (1/2 + gap_size * 1000)⟩
    else Option.none
  else if highs.getD i 0 < lows.getD (i - 2) 0 then
    let gap_size := lows.getD (i - 2) 0 - highs.getD i 0
    if gap_size > threshold then
      Option.some ⟨"FVG_BEARISH", highs.getD i 0, lows.getD (i - 2) 0, gap_size, i,
        min (9/10) (1/2 + gap_size * 1000)⟩
    else Option.none
  else Option.none

/-- detect_fair_value_gaps models the render FVG detector: the loop runs i
over range(2, len(highs)) and appends at most one signal per index; the full
list is returned with no truncation. The threshold is the fvg_threshold
attribute (0.0001 in the constructor, never rewritten in this class), kept
as a parameter here. -/
def detect_fair_value_gaps (threshold : ℚ) (md : MarketData) : List FvgSignal :=
  (List.range' 2 (md.high.length - 2)).filterMap (fvg_step threshold md.high md.low)

/-- OrderBlock models one entry of the order_blocks list of the render
detector. -/
structure OrderBlock where
  kind : String
  zone_low : ℚ
  zone_high : ℚ
  volume_confirmation : Bool
  confidence : ℚ
deriving Repr, DecidableEq

/-- ob_step is the body of the render order-block loop at index i, including
the conditional average volume (1 when volumes[i] is not positive) and the
Python or-expression choosing the current volume. -/
def ob_step (md : MarketData) (i : ℕ) : Option OrderBlock :=
  let avg_volume := if md.volume.getD i 0 > 0
    then ((md.volume.drop (i - 10)).take 10).sum / 10 else 1
  let current_volume := if md.volume.getD i 0 ≠ 0 then md.volume.getD i 0 else avg_volume
  if current_volume > avg_volume * (3/2) ∧
      md.close.getD i 0 > md.close.getD (i - 1) 0 ∧
      md.close.getD (i + 1) 0 > md.close.getD i 0 then
    Option.some ⟨"ORDER_BLOCK_BULLISH", md.low.getD i 0, md.high.getD i 0,
      current_volume > avg_volume * (3/2), 3/5⟩
  else if current_volume > avg_volume * (3/2) ∧
      md.close.getD i 0 < md.close.getD (i - 1) 0 ∧
      md.close.getD (i + 1) 0 < md.close.getD i 0 then
    Option.some ⟨"ORDER_BLOCK_BEARISH", md.low.getD i 0, md.high.getD i 0,
      current_volume > avg_volume * (3/2), 3/5⟩
  else Option.none

/-- detect_order_blocks models the render order-block detector, whose loop
runs i over range(10, len(closes) - 5). -/
def detect_order_blocks (md : MarketData) : List OrderBlock :=
  (List.range' 10 (md.close.length - 15)).filterMap (ob_step md)

/-- SMCData models the dictionary assembled by the render
analyze_smart_money_concepts. -/
structure SMCData where
  swing_points : SwingPoints
  bos_signals : List BosSignal
  mss_signals : List MssSignal
  fvg_signals : List FvgSignal
  order_blocks : List OrderBlock
  smc_patterns_count : ℕ
  smc_confidence : ℚ
  has_smc_confluence : Bool
  analysis_timestamp : Option ℤ

/-- fvg_threshold is the constructor value of the render class attribute. -/
def fvg_threshold : ℚ := 1/10000

/-- analyze_smart_money_concepts models the render analyzer: fewer than 50
closes yields None, otherwise the four detectors run and the pattern count
feeds the aggregate confidence min(0.9, 0.3 + patterns * 0.15). -/
def analyze_smart_money_concepts (md : MarketData) : Option SMCData :=
  if md.close.length < 50 then Option.none
  else
    let sp := identify_swing_points md
    let bos := detect_break_of_structure md sp
    let mss := detect_market_structure_shift md sp
    let fvg := detect_fair_value_gaps fvg_threshold md
    let ob := detect_order_blocks md
    let smc_patterns := bos.length + mss.length + fvg.length + ob.length
    Option.some
      { swing_points := sp
        bos_signals := bos
        mss_signals := mss
        fvg_signals := fvg
        order_blocks := ob
        smc_patterns_count := smc_patterns
        smc_confidence := min (9/10) (3/10 + (smc_patterns : ℚ) * (3/20))
        has_smc_confluence := 2 ≤ smc_patterns
        analysis_timestamp := md.timestamps.getLast? }

/-- calculate_smc_signal_strength models the render confluence function. It
returns a dictionary whose keys are direction, strength, confluence,
bullish_signals and bearish_signals; in particular it carries no confidence
and no signal_count key, which is what claim C1 is about. The falsy-input
early return of the source corresponds to the none branch. -/
def calculate_smc_signal_strength (a : Option SMCData) : PyDict :=
  match a with
  | Option.none =>
    [("direction", PyVal.str ("NEUTRAL")), ("strength", PyVal.num 0),
     ("confluence", PyVal.int 0)]
  | Option.some smc =>
    let bos_bull := (smc.bos_signals.filter (fun s => s.kind == "BOS_BULLISH")).length
    let bos_bear := smc.bos_signals.length - bos_bull
    let mss_bull := (smc.mss_signals.filter (fun s => s.kind == "MSS_BULLISH")).length
    let mss_bear := smc.mss_signals.length - mss_bull
    let fvg_bull := (smc.fvg_signals.filter (fun s => s.kind == "FVG_BULLISH")).length
    let fvg_bear := smc.fvg_signals.length - fvg_bull
    let ob_bull := (smc.order_blocks.filter (fun s => s.kind == "ORDER_BLOCK_BULLISH")).length
    let ob_bear := smc.order_blocks.length - ob_bull
    let bullish_signals := bos_bull + mss_bull + fvg_bull + ob_bull
    let bearish_signals := bos_bear + mss_bear + fvg_bear + ob_bear
    let total_confidence := (smc.bos_signals.map (fun s => s.confidence)).sum +
      (smc.mss_signals.map (fun s => s.confidence)).sum +
      (smc.fvg_signals.map (fun s => s.confidence)).sum +
      (smc.order_blocks.map (fun s => s.confidence)).sum
    let total_signals := bullish_signals + bearish_signals
    let direction :=
      if total_signals = 0 then "NEUTRAL"
      else if bullish_signals > bearish_signals then "BUY"
      else if bearish_signals > bullish_signals then "SELL"
      else "NEUTRAL"
    let strength :=
      if total_signals = 0 then 0
      else if bullish_signals ≠ bearish_signals then
        min (19/20) (total_confidence / (total_signals : ℚ))
      else total_confidence / (total_signals : ℚ)
    [("direction", PyVal.str direction), ("strength", PyVal.num strength),
     ("confluence", PyVal.int total_signals),
     ("bullish_signals", PyVal.int bullish_signals),
     ("bearish_signals", PyVal.int bearish_signals)]

end SmartMoneyConceptsRender

namespace SmartMoneyConcepts

/-- identify_swing_points models the pandas variant of the swing detector.
Its loops are line for line the same as the render variant (outer loop over
range(5, len(df) - 5) on the High and Low columns, strict window test), so
the embedding reuses the same window predicates. -/
def identify_swing_points (md : MarketData) : SmartMoneyConceptsRender.SwingPoints :=
  let idxs := List.range' SmartMoneyConceptsRender.swing_strength
    (md.high.length - 2 * SmartMoneyConceptsRender.swing_strength)
  { swing_highs :=
      (idxs.filter (SmartMoneyConceptsRender.is_swing_high md.high)).map
        (fun i => ⟨i, md.timestamps.getD i 0, md.high.getD i 0, "swing_high"⟩),
    swing_lows :=
      (idxs.filter (SmartMoneyConceptsRender.is_swing_low md.low)).map
        (fun i => ⟨i, md.timestamps.getD i 0, md.low.getD i 0, "swing_low"⟩) }

/-- PandasFvg models one entry of the fvg_signals list of the pandas FVG
detector, which carries direction and strength tags and a fixed confidence
of 0.7. -/
structure PandasFvg where
  kind : String
  direction : String
  strength : String
  gap_top : ℚ
  gap_bottom : ℚ
  gap_size : ℚ
  index : ℕ
  confidence : ℚ
deriving Repr, DecidableEq

/-- pandas_fvg_step is the body of the pandas FVG loop at index i. Unlike
the render variant the bullish and bearish tests are independent ifs, so one
index can contribute up to two signals. -/
def pandas_fvg_step (threshold : ℚ) (highs lows : List ℚ) (i : ℕ) : List PandasFvg :=
  let bullish : List PandasFvg :=
    if highs.getD (i - 2) 0 < lows.getD i 0 then
      let gap_size := lows.getD i 0 - highs.getD (i - 2) 0
      if gap_size > threshold then
        [⟨"FVG_BULLISH", "BUY", "MEDIUM", lows.getD i 0, highs.getD (i - 2) 0,
          gap_size, i, 7/10⟩]
      else []
    else []
  let bearish : List PandasFvg :=
    if lows.getD (i - 2) 0 > highs.getD i 0 then
      let gap_size := lows.getD (i - 2) 0 - highs.getD i 0
      if gap_size > threshold then
        [⟨"FVG_BEARISH", "SELL", "MEDIUM", lows.getD (i - 2) 0, highs.getD i 0,
          gap_size, i, 7/10⟩]
      else []
    else []
  bullish ++ bearish

/-- pandas_fvg_all is the full list accumulated by the pandas FVG loop over
range(2, len(df)) before the final truncation. -/
def pandas_fvg_all (threshold : ℚ) (md : MarketData) : List PandasFvg :=
  (List.range' 2 (md.high.length - 2)).flatMap (pandas_fvg_step threshold md.high md.low)

/-- detect_fair_value_gaps models the pandas FVG detector: it returns only
the last five entries of the accumulated list, via the slice [-5:]. -/
def detect_fair_value_gaps (threshold : ℚ) (md : MarketData) : List PandasFvg :=
  let all := pandas_fvg_all threshold md
  all.drop (all.length - 5)

/-- PSignal carries the two fields of a pattern-signal dictionary that the
pandas confluence function reads: direction and confidence. All four pandas
detectors emit dictionaries containing both. -/
structure PSignal where
  direction : String
  confidence : ℚ
deriving Repr, DecidableEq

/-- StrengthResult models the dictionary returned by the pandas
calculate_smc_signal_strength. In the zero-signal early return the source
dictionary omits the signal_count and risk_quality keys; that branch is
represented with signal_count 0 and an empty risk_quality string, and no
claim reads those two fields of that branch. -/
structure StrengthResult where
  action : String
  confidence : ℚ
  signal_count : ℕ
  signals : List PSignal
  risk_quality : String
deriving Repr, DecidableEq

/-- confirms is the guard of the pandas FVG and order-block accumulation
loops: the candidate counts only when the signals list built from BOS and
MSS entries is non-empty and its last element has the same direction. -/
def confirms (signals : List PSignal) (s : PSignal) : Bool :=
  match signals.getLast? with
  | Option.some last => last.direction == s.direction
  | Option.none => false

/-- sumConf is the summed confidence of a signal list. -/
def sumConf (l : List PSignal) : ℚ :=
  (l.map (fun s => s.confidence)).sum

/-- calculate_smc_signal_strength models the pandas confluence function
over the four detector outputs. BOS entries weigh 1.0 and MSS entries 1.2,
and both are appended to the signals list; FVG entries weigh 0.8 and
order-block entries 0.9 but only accumulate (confidence and count) when they
match the direction of the last BOS or MSS entry, and they are never
appended, so the direction vote below counts only BOS and MSS entries. -/
def calculate_smc_signal_strength (bos mss fvg ob : List PSignal) : StrengthResult :=
  let signals := bos ++ mss
  let fvgC := fvg.filter (confirms signals)
  let obC := ob.filter (confirms signals)
  let total_confidence :=
    sumConf bos + (6/5) * sumConf mss + (4/5) * sumConf fvgC + (9/10) * sumConf obC
  let signal_count := bos.length + mss.length + fvgC.length + obC.length
  if signal_count = 0 then ⟨"HOLD", 0, 0, [], ""⟩
  else
    let avg_confidence := total_confidence / (signal_count : ℚ)
    let buy_signals := (signals.filter (fun s => s.direction == "BUY")).length
    let sell_signals := (signals.filter (fun s => s.direction == "SELL")).length
    let primary_direction :=
      if buy_signals > sell_signals ∧ avg_confidence > 7/10 then "BUY"
      else if sell_signals > buy_signals ∧ avg_confidence > 7/10 then "SELL"
      else "HOLD"
    { action := primary_direction
      confidence := min avg_confidence 1
      signal_count := signal_count
      signals := signals
      risk_quality :=
        if avg_confidence > 4/5 then "HIGH"
        else if avg_confidence > 3/5 then "MEDIUM" else "LOW" }

/-- contributing is the list of signals that add to signal_count in the
pandas confluence function: every BOS and MSS entry plus the FVG and
order-block entries passing the confirmation guard. Claim C2 speaks of a
majority over these contributing signals. -/
def contributing (bos mss fvg ob : List PSignal) : List PSignal :=
  (bos ++ mss) ++ fvg.filter (confirms (bos ++ mss)) ++ ob.filter (confirms (bos ++ mss))

/-- buyCount counts the BUY-directed entries of a signal list. -/
def buyCount (l : List PSignal) : ℕ :=
  (l.filter (fun s => s.direction == "BUY")).length

/-- sellCount counts the SELL-directed entries of a signal list. -/
def sellCount (l : List PSignal) : ℕ :=
  (l.filter (fun s => s.direction == "SELL")).length

end SmartMoneyConcepts

/-- falsyL models the Python truthiness test "if not x" for an optional
list: both None and the empty list are falsy. -/
def falsyL (o : Option (List ℚ)) : Bool :=
  match o with
  | Option.none => true
  | Option.some [] => true
  | Option.some (_ :: _) => false

/-- ema_loop is the shared EMA recurrence: each new value is
alpha * price + (1 - alpha) * previous. -/
def ema_loop (alpha : ℚ) (prev : ℚ) : List ℚ → List ℚ
  | [] => []
  | p :: t =>
    let e := alpha * p + (1 - alpha) * prev
    e :: ema_loop alpha e t

namespace TechnicalAnalysisRender

/-- calculate_ema models the render EMA: None on input shorter than the
period, otherwise the series seeded with the first price. -/
def calculate_ema (prices : List ℚ) (period : ℕ) : Option (List ℚ) :=
  if prices.length < period then Option.none
  else
    match prices with
    | [] => Option.none
    | p :: t => Option.some (p :: ema_loop (2 / ((period : ℚ) + 1)) p t)

/-- rsiVal is the body of the render RSI loop for one step: a zero average
loss yields 100 outright, otherwise 100 - 100 / (1 + rs) with
rs = avg_gain / avg_loss. -/
def rsiVal (avg_gain avg_loss : ℚ) : ℚ :=
  if avg_loss = 0 then 100
  else 100 - 100 / (1 + avg_gain / avg_loss)

/-- rsi_loop models the render RSI loop over the delta indices from period
to len(deltas) - 1, carrying the Wilder-smoothed averages; the averages are
only advanced while another iteration remains, as in the source. -/
def rsi_loop (period : ℕ) (gains losses : List ℚ) :
    List ℕ → ℚ → ℚ → List ℚ
  | [], _, _ => []
  | i :: rest, avg_gain, avg_loss =>
    rsiVal avg_gain avg_loss ::
      (if i < gains.length - 1 then
        rsi_loop period gains losses rest
          ((avg_gain * ((period : ℚ) - 1) + gains.getD i 0) / (period : ℚ))
          ((avg_loss * ((period : ℚ) - 1) + losses.getD i 0) / (period : ℚ))
      else rsi_loop period gains losses rest avg_gain avg_loss)

/-- calculate_rsi models the render RSI: None on input of length at most the
period, otherwise the loop seeded with the simple averages of the first
period gains and losses. -/
def calculate_rsi (prices : List ℚ) (period : ℕ) : Option (List ℚ) :=
  if prices.length < period + 1 then Option.none
  else
    let deltas := (List.range (prices.length - 1)).map
      (fun i => prices.getD (i + 1) 0 - prices.getD i 0)
    let gains := deltas.map (fun d => if d > 0 then d else 0)
    let losses := deltas.map (fun d => if d < 0 then -d else 0)
    let avg_gain := (gains.take period).sum / (period : ℚ)
    let avg_loss := (losses.take period).sum / (period : ℚ)
    Option.some (rsi_loop period gains losses
      (List.range' period (deltas.length - period)) avg_gain avg_loss)

/-- calculate_macd models the render MACD: the line is the pointwise
difference of the fast and slow EMAs, the signal line an EMA(9) of the line,
and the histogram their pointwise difference, with the falsy checks of the
source. -/
def calculate_macd (prices : List ℚ) :
    Option (List ℚ) × Option (List ℚ) × Option (List ℚ) :=
  if prices.length < 26 then (Option.none, Option.none, Option.none)
  else
    let ema_fast := calculate_ema prices 12
    let ema_slow := calculate_ema prices 26
    if falsyL ema_fast || falsyL ema_slow then (Option.none, Option.none, Option.none)
    else
      let ef := ema_fast.getD []
      let es := ema_slow.getD []
      let macd_line := (List.range es.length).filterMap
        (fun i => if i < ef.length then Option.some (ef.getD i 0 - es.getD i 0) else Option.none)
      let macd_signal := calculate_ema macd_line 9
      if falsyL macd_signal then (Option.some macd_line, Option.none, Option.none)
      else
        let ms := macd_signal.getD []
        let macd_histogram := (List.range ms.length).filterMap
          (fun i => if i < macd_line.length then
            Option.some (macd_line.getD i 0 - ms.getD i 0) else Option.none)
        (Option.some macd_line, Option.some ms, Option.some macd_histogram)

/-- Indicators models the dictionary returned by the render
calculate_indicators: the latest scalars plus the raw series. The histogram
scalar is optional exactly as in the source, which stores None for a falsy
histogram series. -/
structure Indicators where
  price : ℚ
  ema50 : ℚ
  ema200 : ℚ
  rsi : ℚ
  macd : ℚ
  macd_signal : ℚ
  macd_histogram : Option ℚ
  prices : List ℚ
  ema50_series : List ℚ
  ema200_series : List ℚ
  rsi_series : List ℚ
  macd_series : List ℚ

/-- calculate_indicators models the render indicator engine: fewer than 200
closes yields None, then each falsy intermediate result yields None, and
otherwise the latest values are collected. -/
def calculate_indicators (md : MarketData) : Option Indicators :=
  if md.close.length < 200 then Option.none
  else
    let prices := md.close
    let ema50 := calculate_ema prices 50
    let ema200 := calculate_ema prices 200
    if falsyL ema50 || falsyL ema200 then Option.none
    else
      let rsi := calculate_rsi prices 14
      if falsyL rsi then Option.none
      else
        let m := calculate_macd prices
        if falsyL m.1 || falsyL m.2.1 then Option.none
        else
          Option.some
            { price := prices.getLastD 0
              ema50 := (ema50.getD []).getLastD 0
              ema200 := (ema200.getD []).getLastD 0
              rsi := (rsi.getD []).getLastD 0
              macd := (m.1.getD []).getLastD 0
              macd_signal := (m.2.1.getD []).getLastD 0
              macd_histogram :=
                if falsyL m.2.2 then Option.none
                else Option.some ((m.2.2.getD []).getLastD 0)
              prices := prices
              ema50_series := ema50.getD []
              ema200_series := ema200.getD []
              rsi_series := rsi.getD []
              macd_series := m.1.getD [] }

end TechnicalAnalysisRender

namespace TechnicalAnalysis

/-- calculate_ema models the pandas-variant EMA, which has no length guard
and seeds with the first element; an empty series would raise in the source
and is embedded as the empty list. -/
def calculate_ema (data : List ℚ) (period : ℕ) : List ℚ :=
  match data with
  | [] => []
  | p :: t => p :: ema_loop (2 / ((period : ℚ) + 1)) p t

/-- calculate_macd models the pandas-variant MACD; the pandas subtraction of
two equally indexed series is a pointwise zip. -/
def calculate_macd (data : List ℚ) : List ℚ × List ℚ × List ℚ :=
  let ema_fast := calculate_ema data 12
  let ema_slow := calculate_ema data 26
  let macd_line := List.zipWith (fun a b => a - b) ema_fast ema_slow
  let macd_signal := calculate_ema macd_line 9
  let macd_histogram := List.zipWith (fun a b => a - b) macd_line macd_signal
  (macd_line, macd_signal, macd_histogram)

/-- Indicators models the dictionary of post-dropna indicator columns
returned by the pandas variant. -/
structure Indicators where
  ema50 : List ℚ
  ema200 : List ℚ
  rsi : List ℚ
  macd : List ℚ
  macd_signal : List ℚ
  macd_histogram : List ℚ

/-- calculate_indicators models the pandas-variant indicator engine. Its RSI
helper is built entirely from pandas rolling-window primitives (diff, where,
rolling mean and elementwise float division with NaN and infinity
propagation); those float semantics are not representable over the
rationals, so the RSI column is taken as a parameter producing an optional
value per row, with none standing for NaN. The EMA and MACD columns never
contain NaN, so dropna keeps exactly the rows whose RSI cell is defined.
Every claim about this function concerns only the initial length guard. -/
def calculate_indicators (rsiF : List ℚ → ℕ → List (Option ℚ))
    (close : List ℚ) : Option Indicators :=
  if close.length < 200 then Option.none
  else
    let ema50 := calculate_ema close 50
    let ema200 := calculate_ema close 200
    let rsi := rsiF close 14
    let m := calculate_macd close
    let keep := (List.range close.length).filter (fun i => (rsi.getD i Option.none).isSome)
    if keep = [] then Option.none
    else
      Option.some
        { ema50 := keep.map (fun i => ema50.getD i 0)
          ema200 := keep.map (fun i => ema200.getD i 0)
          rsi := keep.map (fun i => (rsi.getD i Option.none).getD 0)
          macd := keep.map (fun i => m.1.getD i 0)
          macd_signal := keep.map (fun i => m.2.1.getD i 0)
          macd_histogram := keep.map (fun i => m.2.2.getD i 0) }

end TechnicalAnalysis

/-- beginsWith tests whether the first list is an initial segment of the
second. -/
def beginsWith : List Char → List Char → Bool
  | [], _ => true
  | _ :: _, [] => false
  | a :: as, b :: bs => a == b && beginsWith as bs

/-- hasInfix tests whether the pattern occurs contiguously in the text. -/
def hasInfix (pat : List Char) : List Char → Bool
  | [] => beginsWith pat []
  | c :: t => beginsWith pat (c :: t) || hasInfix pat t

/-- containsUSD models the Python membership test of the substring USD in a
symbol name, the branch condition of the risk validation and position
sizing. -/
def containsUSD (symbol : String) : Bool :=
  hasInfix "USD".toList symbol.toList

/-- insertLe is one insertion step of the ascending sort used to model the
Python sorted builtin. -/
def insertLe (x : ℚ) : List ℚ → List ℚ
  | [] => [x]
  | y :: t => if x ≤ y then x :: y :: t else y :: insertLe x t

/-- sortAsc models sorted(l). -/
def sortAsc (l : List ℚ) : List ℚ :=
  l.foldr insertLe []

/-- sortDesc models sorted(l, reverse=True). -/
def sortDesc (l : List ℚ) : List ℚ :=
  (sortAsc l).reverse

namespace RiskManager

/-- Levels models the dictionary of recent support and resistance levels. -/
structure Levels where
  resistance : List ℚ
  support : List ℚ
deriving Repr, DecidableEq

/-- identify_support_resistance models the swing-level scan of the risk
manager: an interior index whose high equals the maximum of its symmetric
41-bar window contributes a resistance level, symmetrically for lows and
minima, and of each list only the last ten entries are kept, resistances
sorted descending and supports ascending. -/
def identify_support_resistance (highs lows : List ℚ) : Levels :=
  let lookback := 20
  let resistance_levels := (List.range' lookback (highs.length - 2 * lookback)).filterMap
    (fun i =>
      match pyMax ((highs.drop (i - lookback)).take (2 * lookback + 1)) with
      | Option.some m => if highs.getD i 0 = m then Option.some (highs.getD i 0) else Option.none
      | Option.none => Option.none)
  let support_levels := (List.range' lookback (lows.length - 2 * lookback)).filterMap
    (fun i =>
      match pyMin ((lows.drop (i - lookback)).take (2 * lookback + 1)) with
      | Option.some m => if lows.getD i 0 = m then Option.some (lows.getD i 0) else Option.none
      | Option.none => Option.none)
  { resistance := sortDesc (resistance_levels.drop (resistance_levels.length - 10))
    support := sortAsc (support_levels.drop (support_levels.length - 10)) }

/-- calculate_optimal_stop_loss models the stop-loss engine: the volatility
candidate at 1.5 * ATR from the entry is compared with the nearest opposing
structural level buffered by 0.3 * ATR, and the candidate closer to the
entry wins (max for BUY, min for SELL). The ATR argument is the ATR series;
the source reads its last element. -/
def calculate_optimal_stop_loss (entry_price : ℚ) (direction : String)
    (highs lows : List ℚ) (atr : List ℚ) : ℚ :=
  let current_atr := atr.getLastD 0
  let levels := identify_support_resistance highs lows
  if direction == "BUY" then
    let base_sl := entry_price - current_atr * (3/2)
    let support_below := levels.support.filter (fun l => decide (l < entry_price))
    match pyMax support_below with
    | Option.some nearest_support => max base_sl (nearest_support - current_atr * (3/10))
    | Option.none => base_sl
  else
    let base_sl := entry_price + current_atr * (3/2)
    let resistance_above := levels.resistance.filter (fun l => decide (entry_price < l))
    match pyMin resistance_above with
    | Option.some nearest_resistance => min base_sl (nearest_resistance + current_atr * (3/10))
    | Option.none => base_sl

/-- validate_trade_risk models the risk validation: the boolean component is
False exactly on the three rejection rules of the branch selected by the
USD-substring test; the message component keeps the leading text of the
source without the interpolated numbers. -/
def validate_trade_risk (entry_price stop_loss take_profit : ℚ)
    (symbol : String) : Bool × String :=
  let risk := |entry_price - stop_loss|
  let reward := |take_profit - entry_price|
  let rr_ratio := if risk > 0 then reward / risk else 0
  if containsUSD symbol then
    let risk_pips := risk * 10000
    if rr_ratio < 9/5 then (false, "R:R ratio too low")
    else if risk_pips > 40 then (false, "Risk too high")
    else if risk_pips < 8 then (false, "Stop too tight")
    else (true, "Risk validated")
  else
    let risk_percent := risk / entry_price * 100
    if rr_ratio < 9/5 then (false, "R:R ratio too low")
    else if risk_percent > 5/2 then (false, "Risk too high")
    else if risk_percent < 3/10 then (false, "Stop too tight")
    else (true, "Risk validated")

/-- calculate_position_size models the position sizing. In the source a zero
risk per unit raises ZeroDivisionError and the except branch returns 0.01;
over the rationals division by zero produces 0, which flows through the
rounding branches to the same 0.01 floor, so the embedding and the source
agree on every input. -/
def calculate_position_size (account_balance risk_percent entry_price stop_loss : ℚ)
    (symbol : String) : ℚ :=
  let risk_amount := account_balance * (risk_percent / 100)
  let risk_per_unit := |entry_price - stop_loss|
  let lot_size :=
    if containsUSD symbol then
      let pip_value := 10
      let risk_pips := risk_per_unit * 10000
      let max_lots := risk_amount / (risk_pips * pip_value)
      if max_lots ≥ 1 then pyRound max_lots 1
      else if max_lots ≥ 1/10 then pyRound max_lots 2
      else 1/100
    else
      let max_units := risk_amount / risk_per_unit
      pyRound max_units 4
  max lot_size (1/100)

end RiskManager

namespace TradingBot

/-- SymbolInfo models one entry of the symbols table of the bot
constructor. -/
structure SymbolInfo where
  name : String
  atr_multiplier : ℚ
  asset_type : String
deriving Repr, DecidableEq

/-- symbols is the instrument table of the bot constructor. -/
def symbols : List (String × SymbolInfo) :=
  [("EURUSD=X", ⟨"EUR/USD", 1/500, "forex"⟩),
   ("GBPUSD=X", ⟨"GBP/USD", 1/500, "forex"⟩),
   ("XAUUSD=X", ⟨"Gold", 20, "commodity"⟩),
   ("BTC-USD", ⟨"Bitcoin", 20, "crypto"⟩)]

/-- min_confidence_threshold is the constructor value 0.75. -/
def min_confidence_threshold : ℚ := 3/4

/-- high_quality_threshold is the constructor value 0.85. -/
def high_quality_threshold : ℚ := 17/20

/-- calculate_stop_loss_take_profit models the ATR-multiple bracket around
the entry; an unknown symbol raises KeyError in the source, embedded as
none, which the caller turns into the absent-signal outcome. -/
def calculate_stop_loss_take_profit (entry_price : ℚ) (direction : String)
    (symbol : String) : Option (ℚ × ℚ) :=
  match slookup symbols symbol with
  | Option.none => Option.none
  | Option.some info =>
    let atr_value := info.atr_multiplier
    if direction == "BUY" then
      Option.some (pyRound (entry_price - atr_value) 5, pyRound (entry_price + 2 * atr_value) 5)
    else
      Option.some (pyRound (entry_price + atr_value) 5, pyRound (entry_price - 2 * atr_value) 5)

/-- is_high_quality_setup models the quality gate. The smc_signal argument
is the dictionary produced by the render confluence function; the gate reads
its confidence, signal_count and action keys with dictionary get. The
volatility test and the asset-specific test of the source depend on a sample
standard deviation (an irrational square root) and on the wall clock, so
their boolean outcomes enter as the two trailing arguments; the claims
quantify over both outcomes. -/
def is_high_quality_setup (smc_signal : PyDict) (traditional_signals : List String)
    (too_volatile : Bool) (asset_check_ok : Bool) : Bool :=
  if dgetNum smc_signal "confidence" 0 < min_confidence_threshold then false
  else if dgetInt smc_signal "signal_count" 0 < 2 then false
  else
    let smc_direction := dget smc_signal "action"
    let traditional_buy := (traditional_signals.filter (fun s => s == "BUY")).length
    let traditional_sell := (traditional_signals.filter (fun s => s == "SELL")).length
    if pyEqStr smc_direction "BUY" && decide (traditional_buy < traditional_sell) then false
    else if pyEqStr smc_direction "SELL" && decide (traditional_sell < traditional_buy) then false
    else if too_volatile then false
    else if !asset_check_ok then false
    else true

/-- get_confluence_direction models the final direction rule: the SMC action
must be BUY or SELL and at least one traditional signal must agree. -/
def get_confluence_direction (smc_signal : PyDict)
    (traditional_signals : List String) : Option String :=
  let smc_direction := dget smc_signal "action"
  let traditional_buy := (traditional_signals.filter (fun s => s == "BUY")).length
  let traditional_sell := (traditional_signals.filter (fun s => s == "SELL")).length
  if pyEqStr smc_direction "BUY" && decide (1 ≤ traditional_buy) then Option.some "BUY"
  else if pyEqStr smc_direction "SELL" && decide (1 ≤ traditional_sell) then Option.some "SELL"
  else Option.none

/-- calculate_overall_confidence models the 70/30 weighted blend of the SMC
confidence and the traditional vote strength, clamped to 1. -/
def calculate_overall_confidence (smc_signal : PyDict)
    (traditional_signals : List String) : ℚ :=
  let smc_confidence := dgetNum smc_signal "confidence" 0
  let traditional_buy := (traditional_signals.filter (fun s => s == "BUY")).length
  let traditional_sell := (traditional_signals.filter (fun s => s == "SELL")).length
  let traditional_strength := ((max traditional_buy traditional_sell : ℕ) : ℚ) / 3
  min (smc_confidence * (7/10) + traditional_strength * (3/10)) 1

/-- Signal models the signal dictionary assembled by generate_signal; the
timestamp is the wall-clock instant passed by the caller, in seconds. -/
structure Signal where
  symbol : String
  asset_name : String
  direction : String
  entry_price : ℚ
  stop_loss : ℚ
  take_profit : ℚ
  timestamp : ℚ
  confidence : ℚ
  risk_quality : String
  strategy_type : String
  smc_signals : PyVal
  signal_strength : ℤ

/-- generate_signal models the wired signal pipeline of the bot: render
indicators, render SMC analysis, the render confluence dictionary, the three
traditional votes, the quality gate, the confluence direction and the final
signal record. Every early return of the source, including the exception
handler, produces none. -/
def generate_signal (symbol : String) (md : MarketData)
    (too_volatile : Bool) (asset_check_ok : Bool) (now : ℚ) : Option Signal :=
  match TechnicalAnalysisRender.calculate_indicators md with
  | Option.none => Option.none
  | Option.some indicators =>
    match SmartMoneyConceptsRender.analyze_smart_money_concepts md with
    | Option.none => Option.none
    | Option.some smc_analysis =>
      let smc_signal :=
        SmartMoneyConceptsRender.calculate_smc_signal_strength (Option.some smc_analysis)
      let t1 : List String :=
        if indicators.ema50 > indicators.ema200 ∧ indicators.price > indicators.ema50 then
          ["BUY"]
        else if indicators.ema50 < indicators.ema200 ∧ indicators.price < indicators.ema50 then
          ["SELL"]
        else []
      let t2 : List String :=
        if indicators.rsi < 35 then ["BUY"]
        else if indicators.rsi > 65 then ["SELL"]
        else []
      let t3 : List String :=
        if indicators.macd > indicators.macd_signal ∧ indicators.macd > 0 then ["BUY"]
        else if indicators.macd < indicators.macd_signal ∧ indicators.macd < 0 then ["SELL"]
        else []
      let traditional_signals := t1 ++ t2 ++ t3
      if is_high_quality_setup smc_signal traditional_signals too_volatile asset_check_ok then
        match get_confluence_direction smc_signal traditional_signals with
        | Option.none => Option.none
        | Option.some final_direction =>
          let entry_price := pyRound indicators.price 5
          match calculate_stop_loss_take_profit entry_price final_direction symbol with
          | Option.none => Option.none
          | Option.some (stop_loss, take_profit) =>
            match slookup symbols symbol with
            | Option.none => Option.none
            | Option.some info =>
              Option.some
                { symbol := symbol
                  asset_name := info.name
                  direction := final_direction
                  entry_price := entry_price
                  stop_loss := stop_loss
                  take_profit := take_profit
                  timestamp := now
                  confidence := calculate_overall_confidence smc_signal traditional_signals
                  risk_quality :=
                    match dget smc_signal "risk_quality" with
                    | Option.some (PyVal.str s) => s
                    | _ => "MEDIUM"
                  strategy_type := "SMC_SNIPER"
                  smc_signals := (dget smc_signal "signals").getD (PyVal.list [])
                  signal_strength :=
                    dgetInt smc_signal "signal_count" 0 + traditional_signals.length }
      else Option.none

/-- should_send_signal models the duplicate suppressor: a candidate is
dropped exactly when the retained signal for the same instrument has the
same direction and lies strictly less than 3600 seconds in the past. -/
def should_send_signal (last_signals : List (String × Signal)) (signal : Signal) : Bool :=
  match slookup last_signals signal.symbol with
  | Option.none => true
  | Option.some last_signal =>
    !(last_signal.direction == signal.direction &&
      decide (signal.timestamp - last_signal.timestamp < 3600))

/-- process_symbol models one per-instrument cycle step as a transition on
the dedup state. The market-data fetch and the notification delivery are
external collaborators, passed as the data argument and the send oracle; the
signal generator is passed as a function, instantiated with generate_signal
in the wired bot. The retained-signal table is overwritten only inside the
branch where the send oracle reports success. -/
def process_symbol (gen : MarketData → Option Signal) (send : Signal → Bool)
    (last_signals : List (String × Signal)) (data : Option MarketData) :
    List (String × Signal) :=
  match data with
  | Option.none => last_signals
  | Option.some d =>
    if d.close.length < 200 then last_signals
    else
      match gen d with
      | Option.none => last_signals
      | Option.some signal =>
        if should_send_signal last_signals signal then
          if send signal then sset last_signals signal.symbol signal
          else last_signals
        else last_signals

end TradingBot

/-- weighted_avg_confidence is the average that the pandas confluence
function divides out of the weighted confidence total, named so the claim
statements can speak about it. -/
def SmartMoneyConcepts.weighted_avg_confidence
    (bos mss fvg ob : List SmartMoneyConcepts.PSignal) : ℚ :=
  (SmartMoneyConcepts.sumConf bos + 6/5 * SmartMoneyConcepts.sumConf mss +
      4/5 * SmartMoneyConcepts.sumConf
        (fvg.filter (SmartMoneyConcepts.confirms (bos ++ mss))) +
      9/10 * SmartMoneyConcepts.sumConf
        (ob.filter (SmartMoneyConcepts.confirms (bos ++ mss)))) /
    ((bos.length + mss.length +
      (fvg.filter (SmartMoneyConcepts.confirms (bos ++ mss))).length +
      (ob.filter (SmartMoneyConcepts.confirms (bos ++ mss))).length : ℕ) : ℚ)

/-! Concrete inputs used by witnesses and counterexamples. -/

/-- emptyMD is a concrete empty bar window. -/
def emptyMD : MarketData :=
  { opens := [], high := [], low := [], close := [], volume := [], timestamps := [] }

/-- trendPrices is a strictly increasing 16-bar close series. -/
def trendPrices : List ℚ :=
  [0, 1, 2, 3, 4, 5, 6, 7, 8, 9, 10, 11, 12, 13, 14, 15]

/-- peakMD is an eleven-bar window with a single strict extreme at index 5
on both the highs and the lows. -/
def peakMD : MarketData :=
  { opens := []
    high := [0, 1, 2, 3, 4, 9, 4, 3, 2, 1, 0]
    low := [9, 8, 7, 6, 5, 0, 5, 6, 7, 8, 9]
    close := []
    volume := []
    timestamps := [0, 1, 2, 3, 4, 5, 6, 7, 8, 9, 10] }

/-- mkSig builds a signal record carrying only the fields the dedup state
reads. -/
def mkSig (sym dir : String) (ts : ℚ) : TradingBot.Signal :=
  { symbol := sym
    asset_name := ""
    direction := dir
    entry_price := 0
    stop_loss := 0
    take_profit := 0
    timestamp := ts
    confidence := 0
    risk_quality := ""
    strategy_type := ""
    smc_signals := PyVal.list []
    signal_strength := 0 }

/-- dedupLS is a dedup state retaining one BUY signal at time 1000. -/
def dedupLS : List (String × TradingBot.Signal) :=
  [("EURUSD=X", mkSig "EURUSD=X" "BUY" 1000)]

/-- c2bos is two bullish BOS entries with confidence 0.8. -/
def c2bos : List SmartMoneyConcepts.PSignal :=
  [⟨"BUY", 4/5⟩, ⟨"BUY", 4/5⟩]

/-- c2mss is one bearish MSS entry with confidence 0.85. -/
def c2mss : List SmartMoneyConcepts.PSignal :=
  [⟨"SELL", 17/20⟩]

/-- c2fvg is two bearish FVG entries with confidence 0.9; both match the
direction of the last BOS or MSS entry and therefore contribute. -/
def c2fvg : List SmartMoneyConcepts.PSignal :=
  [⟨"SELL", 9/10⟩, ⟨"SELL", 9/10⟩]

/-- gapMD is an eight-bar window in which every index from 2 on carries a
bullish three-bar gap of size 4, so the render FVG detector registers six
signals. -/
def gapMD : MarketData :=
  { opens := []
    high := [0, 1, 2, 3, 4, 5, 6, 7]
    low := [2, 3, 4, 5, 6, 7, 8, 9]
    close := []
    volume := []
    timestamps := [] }

/-- edgeGapMD is a three-bar window whose single three-bar gap is exactly
the forex threshold 0.0001. -/
def edgeGapMD : MarketData :=
  { opens := []
    high := [0, 0, 0]
    low := [0, 0, 1/10000]
    close := []
    volume := []
    timestamps := [] }

/-! Supporting lemmas shared by the claim theorems. -/

theorem pyMax_mem {l : List ℚ} {m : ℚ} (h : pyMax l = Option.some m) : m ∈ l := by
  induction l with
  | nil => simp [pyMax] at h
  | cons x t ih =>
    simp only [pyMax] at h
    cases ht : pyMax t with
    | none =>
      rw [ht] at h
      simp only [Option.some.injEq] at h
      rw [← h]
      exact List.mem_cons_self x t
    | some m0 =>
      rw [ht] at h
      simp only [Option.some.injEq] at h
      rcases max_choice x m0 with hc | hc
      · rw [hc] at h
        rw [← h]
        exact List.mem_cons_self x t
      · rw [hc] at h
        exact List.mem_cons_of_mem x (ih (by rw [ht, h]))

theorem pyMin_mem {l : List ℚ} {m : ℚ} (h : pyMin l = Option.some m) : m ∈ l := by
  induction l with
  | nil => simp [pyMin] at h
  | cons x t ih =>
    simp only [pyMin] at h
    cases ht : pyMin t with
    | none =>
      rw [ht] at h
      simp only [Option.some.injEq] at h
      rw [← h]
      exact List.mem_cons_self x t
    | some m0 =>
      rw [ht] at h
      simp only [Option.some.injEq] at h
      rcases min_choice x m0 with hc | hc
      · rw [hc] at h
        rw [← h]
        exact List.mem_cons_self x t
      · rw [hc] at h
        exact List.mem_cons_of_mem x (ih (by rw [ht, h]))

theorem dget_strength_confidence (a : Option SmartMoneyConceptsRender.SMCData) :
    dget (SmartMoneyConceptsRender.calculate_smc_signal_strength a) "confidence" =
      Option.none := by
  cases a <;> rfl

theorem dgetNum_strength_confidence (a : Option SmartMoneyConceptsRender.SMCData) :
    dgetNum (SmartMoneyConceptsRender.calculate_smc_signal_strength a) "confidence" 0 = 0 := by
  unfold dgetNum
  rw [dget_strength_confidence]

theorem hqs_strength_false (a : Option SmartMoneyConceptsRender.SMCData)
    (t : List String) (v o : Bool) :
    TradingBot.is_high_quality_setup
      (SmartMoneyConceptsRender.calculate_smc_signal_strength a) t v o = false := by
  unfold TradingBot.is_high_quality_setup
  rw [dgetNum_strength_confidence]
  rw [if_pos]
  unfold TradingBot.min_confidence_threshold
  norm_num

/-- C1: for every market-data input (and every outcome of the volatility and
asset-specific checks), TradingBot.generate_signal returns None, because the
quality gate reads the confidence and signal_count keys from the render
confluence dictionary, which carries neither, so the first check compares
the default 0 against 0.75 and always rejects. -/
theorem claim_C1_generate_signal_none (symbol : String) (md : MarketData)
    (too_volatile asset_check_ok : Bool) (now : ℚ) :
    TradingBot.generate_signal symbol md too_volatile asset_check_ok now = Option.none := by
  unfold TradingBot.generate_signal
  cases TechnicalAnalysisRender.calculate_indicators md with
  | none => rfl
  | some indicators =>
    cases SmartMoneyConceptsRender.analyze_smart_money_concepts md with
    | none => rfl
    | some smc_analysis =>
      simp only [hqs_strength_false, Bool.false_eq_true, if_false]

/-- C9: for every close-price sequence shorter than 200 elements, both
indicator engines return the insufficient-data result None and never a
computed value. -/
theorem claim_C9_insufficient_data (md : MarketData)
    (rsiF : List ℚ → ℕ → List (Option ℚ)) (h : md.close.length < 200) :
    TechnicalAnalysisRender.calculate_indicators md = Option.none ∧
    TechnicalAnalysis.calculate_indicators rsiF md.close = Option.none := by
  constructor
  · unfold TechnicalAnalysisRender.calculate_indicators
    rw [if_pos h]
  · unfold TechnicalAnalysis.calculate_indicators
    rw [if_pos h]

theorem claim_C9_witness :
    TechnicalAnalysisRender.calculate_indicators emptyMD = Option.none ∧
    TechnicalAnalysis.calculate_indicators (fun _ _ => []) emptyMD.close = Option.none :=
  claim_C9_insufficient_data emptyMD (fun _ _ => []) (by norm_num [emptyMD])

theorem rsiVal_bounds {g l : ℚ} (hg : 0 ≤ g) (hl : 0 ≤ l) :
    0 ≤ TechnicalAnalysisRender.rsiVal g l ∧ TechnicalAnalysisRender.rsiVal g l ≤ 100 := by
  unfold TechnicalAnalysisRender.rsiVal
  split
  · norm_num
  · rename_i hne
    have hlpos : 0 < l := lt_of_le_of_ne hl (Ne.symm hne)
    have hq : 0 ≤ g / l := div_nonneg hg hl
    have h1 : (1 : ℚ) ≤ 1 + g / l := by linarith
    have h2 : 100 / (1 + g / l) ≤ 100 := by
      calc 100 / (1 + g / l) ≤ 100 / 1 := by
            apply div_le_div_of_nonneg_left (by norm_num) (by norm_num) h1
        _ = 100 := by norm_num
    have h3 : 0 < 100 / (1 + g / l) := by positivity
    constructor <;> linarith

theorem getD_nonneg : ∀ (l : List ℚ) (i : ℕ), (∀ x ∈ l, 0 ≤ x) → 0 ≤ l.getD i 0
  | [], _, _ => le_refl 0
  | x :: _, 0, h => h x (List.mem_cons_self _ _)
  | _ :: t, i + 1, h => getD_nonneg t i (fun y hy => h y (List.mem_cons_of_mem _ hy))

theorem wilder_update_nonneg (p : ℕ) (a x : ℚ) (ha : 0 ≤ a) (hx : 0 ≤ x) :
    0 ≤ (a * ((p : ℚ) - 1) + x) / (p : ℚ) := by
  rcases Nat.eq_zero_or_pos p with h | h
  · subst h
    simp
  · have hp : (1 : ℚ) ≤ (p : ℚ) := by exact_mod_cast h
    apply div_nonneg
    · have := mul_nonneg ha (by linarith : (0 : ℚ) ≤ (p : ℚ) - 1)
      linarith
    · linarith

theorem rsi_loop_bounds (period : ℕ) (gains losses : List ℚ)
    (hg : ∀ x ∈ gains, 0 ≤ x) (hl : ∀ x ∈ losses, 0 ≤ x) :
    ∀ (idxs : List ℕ) (g l : ℚ), 0 ≤ g → 0 ≤ l →
      ∀ v ∈ TechnicalAnalysisRender.rsi_loop period gains losses idxs g l,
        0 ≤ v ∧ v ≤ 100 := by
  intro idxs
  induction idxs with
  | nil =>
    intro g l _ _ v hv
    simp [TechnicalAnalysisRender.rsi_loop] at hv
  | cons i rest ih =>
    intro g l hg0 hl0 v hv
    simp only [TechnicalAnalysisRender.rsi_loop, List.mem_cons] at hv
    rcases hv with rfl | hv
    · exact rsiVal_bounds hg0 hl0
    · by_cases hc : i < gains.length - 1
      · rw [if_pos hc] at hv
        exact ih _ _
          (wilder_update_nonneg period g (gains.getD i 0) hg0 (getD_nonneg gains i hg))
          (wilder_update_nonneg period l (losses.getD i 0) hl0 (getD_nonneg losses i hl))
          v hv
      · rw [if_neg hc] at hv
        exact ih _ _ hg0 hl0 v hv

/-- C10: in the render RSI, a step whose smoothed average loss is zero emits
exactly 100, and every emitted value lies in the interval [0, 100]. -/
theorem claim_C10_rsi_bounds :
    (∀ g : ℚ, TechnicalAnalysisRender.rsiVal g 0 = 100) ∧
    (∀ (prices : List ℚ) (l : List ℚ),
      TechnicalAnalysisRender.calculate_rsi prices 14 = Option.some l →
      ∀ v ∈ l, 0 ≤ v ∧ v ≤ 100) := by
  constructor
  · intro g
    unfold TechnicalAnalysisRender.rsiVal
    rw [if_pos rfl]
  · intro prices l h
    unfold TechnicalAnalysisRender.calculate_rsi at h
    split at h
    · exact absurd h (by simp)
    · simp only [Option.some.injEq] at h
      subst h
      have hd : ∀ x ∈ (List.range (prices.length - 1)).map
          (fun i => prices.getD (i + 1) 0 - prices.getD i 0), True := fun _ _ => trivial
      apply rsi_loop_bounds
      · intro x hx
        simp only [List.mem_map] at hx
        rcases hx with ⟨d, _, rfl⟩
        split <;> simp_all <;> linarith
      · intro x hx
        simp only [List.mem_map] at hx
        rcases hx with ⟨d, _, rfl⟩
        split <;> simp_all <;> linarith
      · apply div_nonneg _ (by positivity)
        apply List.sum_nonneg
        intro x hx
        have hx2 := List.mem_of_mem_take hx
        simp only [List.mem_map] at hx2
        rcases hx2 with ⟨d, _, rfl⟩
        split <;> simp_all <;> linarith
      · apply div_nonneg _ (by positivity)
        apply List.sum_nonneg
        intro x hx
        have hx2 := List.mem_of_mem_take hx
        simp only [List.mem_map] at hx2
        rcases hx2 with ⟨d, _, rfl⟩
        split <;> simp_all <;> linarith

theorem swing_high_filter_iff (l : List ℚ) (n i : ℕ) :
    (i ∈ (List.range' SmartMoneyConceptsRender.swing_strength
        (n - 2 * SmartMoneyConceptsRender.swing_strength)).filter
        (SmartMoneyConceptsRender.is_swing_high l)) ↔
      5 ≤ i ∧ i + 5 < n ∧
        ∀ j, i - 5 ≤ j → j ≤ i + 5 → j ≠ i → l.getD j 0 < l.getD i 0 := by
  rw [List.mem_filter, List.mem_range'_1]
  unfold SmartMoneyConceptsRender.is_swing_high SmartMoneyConceptsRender.swing_strength
  rw [List.all_eq_true]
  constructor
  · rintro ⟨⟨h1, h2⟩, hall⟩
    refine ⟨h1, by omega, ?_⟩
    intro j hj1 hj2 hne
    have hj : j ∈ List.range' (i - 5) (2 * 5 + 1) := by
      rw [List.mem_range'_1]
      omega
    have hb := hall j hj
    simp only [Bool.or_eq_true, beq_iff_eq, decide_eq_true_eq] at hb
    rcases hb with hb | hb
    · exact absurd hb hne
    · exact hb
  · rintro ⟨h1, h2, hall⟩
    refine ⟨⟨h1, by omega⟩, ?_⟩
    intro j hj
    rw [List.mem_range'_1] at hj
    simp only [Bool.or_eq_true, beq_iff_eq, decide_eq_true_eq]
    by_cases he : j = i
    · exact Or.inl he
    · exact Or.inr (hall j (by omega) (by omega) he)

theorem swing_low_filter_iff (l : List ℚ) (n i : ℕ) :
    (i ∈ (List.range' SmartMoneyConceptsRender.swing_strength
        (n - 2 * SmartMoneyConceptsRender.swing_strength)).filter
        (SmartMoneyConceptsRender.is_swing_low l)) ↔
      5 ≤ i ∧ i + 5 < n ∧
        ∀ j, i - 5 ≤ j → j ≤ i + 5 → j ≠ i → l.getD i 0 < l.getD j 0 := by
  rw [List.mem_filter, List.mem_range'_1]
  unfold SmartMoneyConceptsRender.is_swing_low SmartMoneyConceptsRender.swing_strength
  rw [List.all_eq_true]
  constructor
  · rintro ⟨⟨h1, h2⟩, hall⟩
    refine ⟨h1, by omega, ?_⟩
    intro j hj1 hj2 hne
    have hj : j ∈ List.range' (i - 5) (2 * 5 + 1) := by
      rw [List.mem_range'_1]
      omega
    have hb := hall j hj
    simp only [Bool.or_eq_true, beq_iff_eq, decide_eq_true_eq] at hb
    rcases hb with hb | hb
    · exact absurd hb hne
    · exact hb
  · rintro ⟨h1, h2, hall⟩
    refine ⟨⟨h1, by omega⟩, ?_⟩
    intro j hj
    rw [List.mem_range'_1] at hj
    simp only [Bool.or_eq_true, beq_iff_eq, decide_eq_true_eq]
    by_cases he : j = i
    · exact Or.inl he
    · exact Or.inr (hall j (by omega) (by omega) he)

/-- C3: with half width 5, an index is reported as a swing high exactly when
it has a full symmetric window inside the series and its high strictly
dominates every other high of the window, symmetrically for swing lows with
the strict comparison reversed on the lows; equal extremes disqualify and no
index within 5 of either boundary is returned. The pandas variant computes
the identical output. -/
theorem claim_C3_swing_points (md : MarketData) (i : ℕ)
    (hlen : md.low.length = md.high.length) :
    ((i ∈ (SmartMoneyConceptsRender.identify_swing_points md).swing_highs.map
        (fun sp => sp.index)) ↔
      5 ≤ i ∧ i + 5 < md.high.length ∧
        ∀ j, i - 5 ≤ j → j ≤ i + 5 → j ≠ i → md.high.getD j 0 < md.high.getD i 0) ∧
    ((i ∈ (SmartMoneyConceptsRender.identify_swing_points md).swing_lows.map
        (fun sp => sp.index)) ↔
      5 ≤ i ∧ i + 5 < md.high.length ∧
        ∀ j, i - 5 ≤ j → j ≤ i + 5 → j ≠ i → md.low.getD i 0 < md.low.getD j 0) ∧
    SmartMoneyConcepts.identify_swing_points md =
      SmartMoneyConceptsRender.identify_swing_points md := by
  refine ⟨?_, ?_, rfl⟩
  · rw [← swing_high_filter_iff md.high md.high.length i]
    unfold SmartMoneyConceptsRender.identify_swing_points
    simp [List.map_map, Function.comp]
  · rw [← swing_low_filter_iff md.low md.high.length i]
    unfold SmartMoneyConceptsRender.identify_swing_points
    simp [List.map_map, Function.comp]

theorem claim_C3_witness :
    5 ∈ (SmartMoneyConceptsRender.identify_swing_points peakMD).swing_highs.map
      (fun sp => sp.index) :=
  (claim_C3_swing_points peakMD 5 rfl).1.mpr
    ⟨le_refl 5, by norm_num [peakMD], by
      intro j h1 h2 hne
      interval_cases j <;> simp_all [peakMD] <;> norm_num⟩

/-- C5: a second candidate with the direction of the retained signal for the
same instrument is suppressed exactly while the elapsed time is strictly
below 3600 seconds, and allowed from 3600 seconds on. -/
theorem claim_C5_dedup_window (ls : List (String × TradingBot.Signal))
    (X D : String) (T : ℚ) (last s : TradingBot.Signal)
    (hlook : slookup ls X = Option.some last)
    (hld : last.direction = D) (hlt : last.timestamp = T)
    (hsym : s.symbol = X) (hdir : s.direction = D) :
    (s.timestamp - T < 3600 → TradingBot.should_send_signal ls s = false) ∧
    (3600 ≤ s.timestamp - T → TradingBot.should_send_signal ls s = true) := by
  have hb : (last.direction == s.direction) = true := by
    simp [hld, hdir]
  unfold TradingBot.should_send_signal
  rw [hsym, hlook]
  constructor
  · intro h
    show (!(last.direction == s.direction &&
      decide (s.timestamp - last.timestamp < 3600))) = false
    rw [hb, hlt]
    simp [h]
  · intro h
    show (!(last.direction == s.direction &&
      decide (s.timestamp - last.timestamp < 3600))) = true
    rw [hlt]
    have hd : (decide (s.timestamp - T < 3600)) = false := by
      simp only [decide_eq_false_iff_not, not_lt]
      linarith
    rw [hd, Bool.and_false, Bool.not_false]

theorem claim_C5_witness :
    TradingBot.should_send_signal dedupLS (mkSig "EURUSD=X" "BUY" 4599) = false ∧
    TradingBot.should_send_signal dedupLS (mkSig "EURUSD=X" "BUY" 4601) = true :=
  ⟨(claim_C5_dedup_window dedupLS "EURUSD=X" "BUY" 1000
      (mkSig "EURUSD=X" "BUY" 1000) (mkSig "EURUSD=X" "BUY" 4599)
      rfl rfl rfl rfl rfl).1 (by norm_num [mkSig]),
   (claim_C5_dedup_window dedupLS "EURUSD=X" "BUY" 1000
      (mkSig "EURUSD=X" "BUY" 1000) (mkSig "EURUSD=X" "BUY" 4601)
      rfl rfl rfl rfl rfl).2 (by norm_num [mkSig])⟩

/-- C6: the retained-signal table is left unchanged by a cycle step whose
delivery collaborator reports failure, for every generator outcome, so the
suppressed overwrite only happens on confirmed delivery. -/
theorem claim_C6_failed_delivery (gen : MarketData → Option TradingBot.Signal)
    (send : TradingBot.Signal → Bool) (ls : List (String × TradingBot.Signal))
    (data : Option MarketData) (hfail : ∀ s, send s = false) :
    TradingBot.process_symbol gen send ls data = ls := by
  cases data with
  | none => rfl
  | some d =>
    by_cases hlen : d.close.length < 200
    · simp [TradingBot.process_symbol, hlen]
    · cases hg : gen d with
      | none => simp [TradingBot.process_symbol, hlen, hg]
      | some sig => simp [TradingBot.process_symbol, hlen, hg, hfail sig]

theorem claim_C6_witness :
    TradingBot.process_symbol (fun _ => Option.none) (fun _ => false) [] Option.none = [] :=
  claim_C6_failed_delivery (fun _ => Option.none) (fun _ => false) [] Option.none
    (fun _ => rfl)

theorem contributing_length (bos mss fvg ob : List SmartMoneyConcepts.PSignal) :
    (SmartMoneyConcepts.contributing bos mss fvg ob).length =
      bos.length + mss.length +
      (fvg.filter (SmartMoneyConcepts.confirms (bos ++ mss))).length +
      (ob.filter (SmartMoneyConcepts.confirms (bos ++ mss))).length := by
  simp [SmartMoneyConcepts.contributing]
  omega

theorem ite_action_eq_buy (A B : Prop) [Decidable A] [Decidable B] :
    ((if A then "BUY" else if B then "SELL" else "HOLD") : String) = "BUY" ↔ A := by
  split_ifs with h1 h2 <;> simp_all

theorem ite_action_eq_sell (A B : Prop) [Decidable A] [Decidable B] (hx : ¬(A ∧ B)) :
    ((if A then "BUY" else if B then "SELL" else "HOLD") : String) = "SELL" ↔ B := by
  split_ifs with h1 h2
  · constructor
    · intro h
      exact absurd h (by simp)
    · intro hb
      exact absurd ⟨h1, hb⟩ hx
  · simp [h2]
  · simp [h2]

theorem calc_strength_nonzero (bos mss fvg ob : List SmartMoneyConcepts.PSignal)
    (hc : ¬ (bos.length + mss.length +
      (fvg.filter (SmartMoneyConcepts.confirms (bos ++ mss))).length +
      (ob.filter (SmartMoneyConcepts.confirms (bos ++ mss))).length = 0)) :
    SmartMoneyConcepts.calculate_smc_signal_strength bos mss fvg ob =
      { action :=
          if SmartMoneyConcepts.buyCount (bos ++ mss) >
              SmartMoneyConcepts.sellCount (bos ++ mss) ∧
              SmartMoneyConcepts.weighted_avg_confidence bos mss fvg ob > 7/10 then "BUY"
          else if SmartMoneyConcepts.sellCount (bos ++ mss) >
              SmartMoneyConcepts.buyCount (bos ++ mss) ∧
              SmartMoneyConcepts.weighted_avg_confidence bos mss fvg ob > 7/10 then "SELL"
          else "HOLD"
        confidence := min (SmartMoneyConcepts.weighted_avg_confidence bos mss fvg ob) 1
        signal_count := bos.length + mss.length +
          (fvg.filter (SmartMoneyConcepts.confirms (bos ++ mss))).length +
          (ob.filter (SmartMoneyConcepts.confirms (bos ++ mss))).length
        signals := bos ++ mss
        risk_quality :=
          if SmartMoneyConcepts.weighted_avg_confidence bos mss fvg ob > 4/5 then "HIGH"
          else if SmartMoneyConcepts.weighted_avg_confidence bos mss fvg ob > 3/5 then
            "MEDIUM"
          else "LOW" } := by
  simp only [SmartMoneyConcepts.calculate_smc_signal_strength,
    SmartMoneyConcepts.weighted_avg_confidence, SmartMoneyConcepts.buyCount,
    SmartMoneyConcepts.sellCount]
  rw [if_neg hc]

/-- C2 counterexample: with two bullish BOS entries, one bearish MSS entry
and two confirming bearish FVG entries, the pandas confluence function
returns action BUY although only two of the five contributing signals are
BUY signals, so the BUY signals are not a strict majority of the
contributing signals as the claim states. -/
theorem claim_C2_counterexample :
    (SmartMoneyConcepts.calculate_smc_signal_strength c2bos c2mss c2fvg []).action = "BUY" ∧
    SmartMoneyConcepts.buyCount (SmartMoneyConcepts.contributing c2bos c2mss c2fvg []) = 2 ∧
    SmartMoneyConcepts.sellCount (SmartMoneyConcepts.contributing c2bos c2mss c2fvg []) = 3 := by
  have hfc : c2fvg.filter (SmartMoneyConcepts.confirms (c2bos ++ c2mss)) = c2fvg := by
    simp [c2bos, c2mss, c2fvg, SmartMoneyConcepts.confirms, List.filter, List.getLast?]
  have hoc : ([] : List SmartMoneyConcepts.PSignal).filter
      (SmartMoneyConcepts.confirms (c2bos ++ c2mss)) = [] := rfl
  refine ⟨?_, ?_, ?_⟩
  · have hc : ¬ (c2bos.length + c2mss.length +
        (c2fvg.filter (SmartMoneyConcepts.confirms (c2bos ++ c2mss))).length +
        (([] : List SmartMoneyConcepts.PSignal).filter
          (SmartMoneyConcepts.confirms (c2bos ++ c2mss))).length = 0) := by
      rw [hfc, hoc]
      simp [c2bos, c2mss, c2fvg]
    rw [calc_strength_nonzero _ _ _ _ hc]
    dsimp only
    rw [ite_action_eq_buy]
    constructor
    · simp [SmartMoneyConcepts.buyCount, SmartMoneyConcepts.sellCount, c2bos, c2mss,
        List.filter]
    · rw [SmartMoneyConcepts.weighted_avg_confidence, hfc, hoc]
      norm_num [c2bos, c2mss, c2fvg, SmartMoneyConcepts.sumConf]
  · simp [SmartMoneyConcepts.buyCount, SmartMoneyConcepts.contributing,
      SmartMoneyConcepts.confirms, c2bos, c2mss, c2fvg, List.filter, List.getLast?]
  · simp [SmartMoneyConcepts.sellCount, SmartMoneyConcepts.contributing,
      SmartMoneyConcepts.confirms, c2bos, c2mss, c2fvg, List.filter, List.getLast?]

/-- C2 (amended): the pandas confluence function returns HOLD with
confidence 0 when no signals contribute, and returns BUY (resp. SELL)
exactly when some signal contributes, the BUY (resp. SELL) entries are a
strict majority of the BOS and MSS entries alone (FVG and order-block
entries contribute to the count and the weighted confidence but not to the
direction vote), and the weighted average confidence exceeds 0.7; in every
other case it returns HOLD. -/
theorem claim_C2_confluence_majority (bos mss fvg ob : List SmartMoneyConcepts.PSignal) :
    (SmartMoneyConcepts.contributing bos mss fvg ob = [] →
      (SmartMoneyConcepts.calculate_smc_signal_strength bos mss fvg ob).action = "HOLD" ∧
      (SmartMoneyConcepts.calculate_smc_signal_strength bos mss fvg ob).confidence = 0) ∧
    ((SmartMoneyConcepts.calculate_smc_signal_strength bos mss fvg ob).action = "BUY" ↔
      SmartMoneyConcepts.contributing bos mss fvg ob ≠ [] ∧
      SmartMoneyConcepts.buyCount (bos ++ mss) > SmartMoneyConcepts.sellCount (bos ++ mss) ∧
      SmartMoneyConcepts.weighted_avg_confidence bos mss fvg ob > 7/10) ∧
    ((SmartMoneyConcepts.calculate_smc_signal_strength bos mss fvg ob).action = "SELL" ↔
      SmartMoneyConcepts.contributing bos mss fvg ob ≠ [] ∧
      SmartMoneyConcepts.sellCount (bos ++ mss) > SmartMoneyConcepts.buyCount (bos ++ mss) ∧
      SmartMoneyConcepts.weighted_avg_confidence bos mss fvg ob > 7/10) := by
  have hlen := contributing_length bos mss fvg ob
  by_cases hc : bos.length + mss.length +
      (fvg.filter (SmartMoneyConcepts.confirms (bos ++ mss))).length +
      (ob.filter (SmartMoneyConcepts.confirms (bos ++ mss))).length = 0
  · have hemp : SmartMoneyConcepts.contributing bos mss fvg ob = [] := by
      rw [← List.length_eq_zero, hlen]
      omega
    have hval : SmartMoneyConcepts.calculate_smc_signal_strength bos mss fvg ob =
        ⟨"HOLD", 0, 0, [], ""⟩ := by
      simp only [SmartMoneyConcepts.calculate_smc_signal_strength]
      rw [if_pos hc]
    rw [hval]
    refine ⟨fun _ => ⟨rfl, rfl⟩, ?_, ?_⟩
    · simp [hemp]
    · simp [hemp]
  · have hne : SmartMoneyConcepts.contributing bos mss fvg ob ≠ [] := by
      intro h
      apply hc
      rw [← hlen, h]
      rfl
    have hx : ¬ ((SmartMoneyConcepts.buyCount (bos ++ mss) >
        SmartMoneyConcepts.sellCount (bos ++ mss) ∧
        SmartMoneyConcepts.weighted_avg_confidence bos mss fvg ob > 7/10) ∧
        (SmartMoneyConcepts.sellCount (bos ++ mss) >
        SmartMoneyConcepts.buyCount (bos ++ mss) ∧
        SmartMoneyConcepts.weighted_avg_confidence bos mss fvg ob > 7/10)) := by
      rintro ⟨⟨h1, -⟩, ⟨h2, -⟩⟩
      omega
    rw [calc_strength_nonzero bos mss fvg ob hc]
    refine ⟨fun h => absurd h hne, ?_, ?_⟩
    · dsimp only
      rw [ite_action_eq_buy]
      constructor
      · exact fun h => ⟨hne, h⟩
      · exact fun h => h.2
    · dsimp only
      rw [ite_action_eq_sell _ _ hx]
      constructor
      · exact fun h => ⟨hne, h⟩
      · exact fun h => h.2

theorem claim_C2_witness :
    (SmartMoneyConcepts.calculate_smc_signal_strength [] [] [] []).action = "HOLD" ∧
    (SmartMoneyConcepts.calculate_smc_signal_strength [] [] [] []).confidence = 0 :=
  (claim_C2_confluence_majority [] [] [] []).1 rfl

/-- C4 counterexample: on a window with six qualifying three-bar gaps the
render FVG detector returns all six signals, so the wired detector does not
retain only the most recent five gaps. -/
theorem claim_C4_counterexample :
    (SmartMoneyConceptsRender.detect_fair_value_gaps (1/10000) gapMD).length = 6 ∧
    ¬ ((SmartMoneyConceptsRender.detect_fair_value_gaps (1/10000) gapMD).length ≤ 5) := by
  have h : (SmartMoneyConceptsRender.detect_fair_value_gaps (1/10000) gapMD).length = 6 := by
    norm_num [SmartMoneyConceptsRender.detect_fair_value_gaps,
      SmartMoneyConceptsRender.fvg_step, gapMD, List.range', List.filterMap]
  exact ⟨h, by omega⟩

/-- C4 (amended): a three-bar gap exactly equal to the positive threshold
registers no signal (the comparison is strict), a gap strictly above the
threshold registers a signal, every registered signal has confidence at most
0.9, and the retention of only the most recent five gaps holds for the
pandas detector, while the render detector returns every gap. -/
theorem claim_C4_fvg_threshold (threshold : ℚ) (md : MarketData) (i : ℕ)
    (hth : 0 < threshold) (hlen : md.low.length = md.high.length) :
    (md.low.getD i 0 - md.high.getD (i - 2) 0 = threshold →
      SmartMoneyConceptsRender.fvg_step threshold md.high md.low i = Option.none) ∧
    (¬ (md.low.getD i 0 > md.high.getD (i - 2) 0) →
      md.low.getD (i - 2) 0 - md.high.getD i 0 = threshold →
      SmartMoneyConceptsRender.fvg_step threshold md.high md.low i = Option.none) ∧
    (md.low.getD i 0 - md.high.getD (i - 2) 0 > threshold →
      ∃ s, SmartMoneyConceptsRender.fvg_step threshold md.high md.low i = Option.some s ∧
        s.kind = "FVG_BULLISH" ∧ s.confidence ≤ 9/10 ∧
        (2 ≤ i → i < md.high.length →
          s ∈ SmartMoneyConceptsRender.detect_fair_value_gaps threshold md)) ∧
    (¬ (md.low.getD i 0 > md.high.getD (i - 2) 0) →
      md.low.getD (i - 2) 0 - md.high.getD i 0 > threshold →
      ∃ s, SmartMoneyConceptsRender.fvg_step threshold md.high md.low i = Option.some s ∧
        s.kind = "FVG_BEARISH" ∧ s.confidence ≤ 9/10 ∧
        (2 ≤ i → i < md.high.length →
          s ∈ SmartMoneyConceptsRender.detect_fair_value_gaps threshold md)) ∧
    (∀ s ∈ SmartMoneyConceptsRender.detect_fair_value_gaps threshold md,
      s.confidence ≤ 9/10) ∧
    ((SmartMoneyConcepts.detect_fair_value_gaps threshold md).length ≤ 5 ∧
      SmartMoneyConcepts.detect_fair_value_gaps threshold md <:+
        SmartMoneyConcepts.pandas_fvg_all threshold md) := by
  refine ⟨?_, ?_, ?_, ?_, ?_, ?_, ?_⟩
  · intro heq
    have h1 : md.low.getD i 0 > md.high.getD (i - 2) 0 := by linarith
    simp only [SmartMoneyConceptsRender.fvg_step]
    rw [if_pos h1, if_neg (by rw [heq]; exact lt_irrefl _)]
  · intro hnb heq
    have h1 : md.high.getD i 0 < md.low.getD (i - 2) 0 := by linarith
    simp only [SmartMoneyConceptsRender.fvg_step]
    rw [if_neg hnb, if_pos h1, if_neg (by rw [heq]; exact lt_irrefl _)]
  · intro hgt
    have h1 : md.low.getD i 0 > md.high.getD (i - 2) 0 := by linarith
    have hstep : SmartMoneyConceptsRender.fvg_step threshold md.high md.low i =
        Option.some ⟨"FVG_BULLISH", md.high.getD (i - 2) 0, md.low.getD i 0,
          md.low.getD i 0 - md.high.getD (i - 2) 0, i,
          min (9/10) (1/2 + (md.low.getD i 0 - md.high.getD (i - 2) 0) * 1000)⟩ := by
      simp only [SmartMoneyConceptsRender.fvg_step]
      rw [if_pos h1, if_pos hgt]
    refine ⟨_, hstep, rfl, min_le_left _ _, ?_⟩
    intro h2 h3
    unfold SmartMoneyConceptsRender.detect_fair_value_gaps
    rw [List.mem_filterMap]
    exact ⟨i, by rw [List.mem_range'_1]; omega, hstep⟩
  · intro hnb hgt
    have h1 : md.high.getD i 0 < md.low.getD (i - 2) 0 := by linarith
    have hstep : SmartMoneyConceptsRender.fvg_step threshold md.high md.low i =
        Option.some ⟨"FVG_BEARISH", md.high.getD i 0, md.low.getD (i - 2) 0,
          md.low.getD (i - 2) 0 - md.high.getD i 0, i,
          min (9/10) (1/2 + (md.low.getD (i - 2) 0 - md.high.getD i 0) * 1000)⟩ := by
      simp only [SmartMoneyConceptsRender.fvg_step]
      rw [if_neg hnb, if_pos h1, if_pos hgt]
    refine ⟨_, hstep, rfl, min_le_left _ _, ?_⟩
    intro h2 h3
    unfold SmartMoneyConceptsRender.detect_fair_value_gaps
    rw [List.mem_filterMap]
    exact ⟨i, by rw [List.mem_range'_1]; omega, hstep⟩
  · intro s hs
    unfold SmartMoneyConceptsRender.detect_fair_value_gaps at hs
    rw [List.mem_filterMap] at hs
    rcases hs with ⟨j, -, hj⟩
    simp only [SmartMoneyConceptsRender.fvg_step] at hj
    split_ifs at hj <;> simp only [Option.some.injEq] at hj <;>
      first
        | (rw [← hj]; exact min_le_left _ _)
        | (cases hj)
  · unfold SmartMoneyConcepts.detect_fair_value_gaps
    rw [List.length_drop]
    omega
  · exact List.drop_suffix _ _

theorem claim_C4_witness :
    SmartMoneyConceptsRender.fvg_step (1/10000) edgeGapMD.high edgeGapMD.low 2 =
      Option.none :=
  (claim_C4_fvg_threshold (1/10000) edgeGapMD 2 (by norm_num) rfl).1
    (by norm_num [edgeGapMD])

/-- C7 counterexample: the gold symbol is a commodity in the instrument
table, so under the claim the percentage rules should govern it; at entry
1900 with stop 1890.5 and target 1923.75 the reward-risk ratio is 2.5 and
the risk is 0.5 percent of the entry, so the claim predicts acceptance, but
the validator classifies every symbol containing USD under the pip rules and
rejects the plan because 9.5 price units read as 95000 pips exceed the
40-pip cap. -/
theorem claim_C7_counterexample :
    (RiskManager.validate_trade_risk 1900 (3781/2) (7695/4) "XAUUSD=X").1 = false ∧
    (slookup TradingBot.symbols "XAUUSD=X").map (fun info => info.asset_type) =
      Option.some "commodity" ∧
    ¬ ((if |(1900 : ℚ) - 3781/2| > 0 then |(7695 : ℚ)/4 - 1900| / |(1900 : ℚ) - 3781/2|
        else 0) < 9/5) ∧
    ¬ (|(1900 : ℚ) - 3781/2| / 1900 * 100 > 5/2) ∧
    ¬ (|(1900 : ℚ) - 3781/2| / 1900 * 100 < 3/10) := by
  have husd : containsUSD "XAUUSD=X" = true := by decide
  refine ⟨?_, ?_, ?_, ?_, ?_⟩
  · simp only [RiskManager.validate_trade_risk, husd]
    norm_num [abs_of_pos]
  · simp [TradingBot.symbols, slookup]
  · norm_num [abs_of_pos]
  · norm_num [abs_of_pos]
  · norm_num [abs_of_pos]

/-- C7 (amended): the risk validator rejects a plan exactly when the
reward-risk ratio is below 1.8, or the branch selected by the USD-substring
test fails: above 40 or below 8 pips for symbols containing USD (which
includes the gold and bitcoin tickers, not only currency pairs), above 2.5
or below 0.3 percent of entry for the others. -/
theorem claim_C7_validate_reject (entry stop tp : ℚ) (symbol : String) :
    (RiskManager.validate_trade_risk entry stop tp symbol).1 = false ↔
      ((if |entry - stop| > 0 then |tp - entry| / |entry - stop| else 0) < 9/5 ∨
        (if containsUSD symbol then
          |entry - stop| * 10000 > 40 ∨ |entry - stop| * 10000 < 8
        else
          |entry - stop| / entry * 100 > 5/2 ∨ |entry - stop| / entry * 100 < 3/10)) := by
  simp only [RiskManager.validate_trade_risk]
  by_cases hu : containsUSD symbol = true
  · simp only [hu, if_true]
    split_ifs with h1 h2 h3 <;> simp_all
  · have hfu : containsUSD symbol = false := by
      cases hcs : containsUSD symbol
      · rfl
      · exact absurd hcs hu
    simp only [hfu, Bool.false_eq_true, if_false]
    split_ifs with h1 h2 h3 <;> simp_all

/-- C8 counterexample: with a zero latest ATR value and no structural levels
the stop-loss engine returns the entry price itself, so the computed risk
amount is zero and the claim that the stop never equals the entry fails on
a degenerate (flat) volatility series. -/
theorem claim_C8_counterexample :
    RiskManager.calculate_optimal_stop_loss 100 "BUY" [] [] [0] = 100 := by
  norm_num [RiskManager.calculate_optimal_stop_loss,
    RiskManager.identify_support_resistance, sortAsc, sortDesc, pyMax, pyMin,
    List.range', List.getLastD]

/-- C8 (amended): whenever the latest ATR value is positive the computed
stop-loss differs from the entry price (strictly below it for BUY, strictly
above otherwise), and the computed position size never falls below the 0.01
floor. -/
theorem claim_C8_stop_and_floor (entry : ℚ) (direction : String)
    (highs lows atr : List ℚ) (hatr : 0 < atr.getLastD 0) :
    RiskManager.calculate_optimal_stop_loss entry direction highs lows atr ≠ entry ∧
    (∀ bal rp e sl sym, 1/100 ≤ RiskManager.calculate_position_size bal rp e sl sym) := by
  constructor
  · simp only [RiskManager.calculate_optimal_stop_loss]
    by_cases hd : (direction == "BUY") = true
    · rw [if_pos hd]
      cases hm : pyMax ((RiskManager.identify_support_resistance highs lows).support.filter
          (fun l => decide (l < entry))) with
      | none =>
        intro h
        dsimp only at h
        nlinarith
      | some ns =>
        have hns : ns < entry := by
          have hmem := pyMax_mem hm
          rw [List.mem_filter] at hmem
          simpa using hmem.2
        intro h
        dsimp only at h
        rcases max_choice (entry - atr.getLastD 0 * (3/2))
            (ns - atr.getLastD 0 * (3/10)) with hc | hc <;> rw [hc] at h <;> linarith
    · rw [if_neg hd]
      cases hm : pyMin ((RiskManager.identify_support_resistance highs lows).resistance.filter
          (fun l => decide (entry < l))) with
      | none =>
        intro h
        dsimp only at h
        nlinarith
      | some nr =>
        have hnr : entry < nr := by
          have hmem := pyMin_mem hm
          rw [List.mem_filter] at hmem
          simpa using hmem.2
        intro h
        dsimp only at h
        rcases min_choice (entry + atr.getLastD 0 * (3/2))
            (nr + atr.getLastD 0 * (3/10)) with hc | hc <;> rw [hc] at h <;> linarith
  · intro bal rp e sl sym
    simp only [RiskManager.calculate_position_size]
    exact le_max_right _ _

theorem claim_C8_witness :
    RiskManager.calculate_optimal_stop_loss 100 "BUY" [] [] [1] ≠ 100 ∧
    1/100 ≤ RiskManager.calculate_position_size 1000 1 (11/10) 1 "EURUSD=X" :=
  ⟨(claim_C8_stop_and_floor 100 "BUY" [] [] [1]
      (by norm_num [List.getLastD])).1,
   (claim_C8_stop_and_floor 100 "BUY" [] [] [1]
      (by norm_num [List.getLastD])).2 1000 1 (11/10) 1 "EURUSD=X"⟩

theorem claim_C10_witness : 0 ≤ (100 : ℚ) ∧ (100 : ℚ) ≤ 100 :=
  claim_C10_rsi_bounds.2 trendPrices [100]
    (by
      norm_num [trendPrices, TechnicalAnalysisRender.calculate_rsi,
        TechnicalAnalysisRender.rsi_loop, TechnicalAnalysisRender.rsiVal,
        List.range_succ])
    100 (by simp)

end MercuryFX
